import Mathlib

/-!
Verification of the quadrature rotary-encoder direction decoder of the
raspberryPi repository.

The decoder lives in `old-files/rotencPi.c`: a 7×4 full-step transition
table `encoderStateTable` and the interrupt routine `encoderDirection`,
which samples the two GPIO lines, forms the 2-bit code
`(levelB << 1) | levelA`, advances `encoder.state` through the table and
derives a direction from the high nibble of the new state.

The volume-control daemon in the same repository contains a second,
naive four-state decoder `encoderPulse`; it is embedded at the end of
this file.
-/

namespace RotencPi

/-- The 7×4 full-step state table `encoderStateTable` of rotencPi.c.
Each entry packs the next state in the low nibble and an optional
direction flag in the high nibble (`0x10` or `0x20`). -/
def encoderStateTable : List (List Nat) :=
  [[0x0, 0x2, 0x4, 0x0],
   [0x3, 0x0, 0x1, 0x10],
   [0x3, 0x2, 0x0, 0x0],
   [0x3, 0x2, 0x1, 0x0],
   [0x6, 0x0, 0x4, 0x0],
   [0x6, 0x5, 0x0, 0x20],
   [0x6, 0x5, 0x4, 0x0]]

/-- The array access `encoderStateTable[row][col]`. -/
def tableEntry (row col : Nat) : Nat :=
  (encoderStateTable.getD row []).getD col 0

/-- The 2-bit code `( digitalRead( encoder.gpioB ) << 1 ) | digitalRead( encoder.gpioA )`,
with the sampled levels passed in as booleans. -/
def encoderCode (levelA levelB : Bool) : Nat :=
  (levelB.toNat <<< 1) ||| levelA.toNat

/-- One call of `encoderDirection` of rotencPi.c: from the stored
`encoder.state` and the two sampled levels it computes
`encoderStateTable[ state & 0xf ][ code ]`, stores it as the new state,
and sets `encoder.direction` from the masked high nibble
(`direction == 0x10 ? -1 : 1` when nonzero, else `0`).
The returned pair is (new stored state, direction written). -/
def encoderDirection (state : Nat) (levelA levelB : Bool) : Nat × Int :=
  let code := encoderCode levelA levelB
  let state' := tableEntry (state &&& 0xf) code
  let direction := state' &&& 0x30
  (state', if direction ≠ 0 then (if direction = 0x10 then (-1 : Int) else 1) else 0)

/-- The stored state after a sequence of `encoderDirection` calls with the
given (levelA, levelB) samples. -/
def encoderRunState (state : Nat) (inputs : List (Bool × Bool)) : Nat :=
  inputs.foldl (fun s p => (encoderDirection s p.1 p.2).1) state

/-- The successive direction values written by a sequence of
`encoderDirection` calls. -/
def encoderDirectionsFrom (state : Nat) : List (Bool × Bool) → List Int
  | [] => []
  | (a, b) :: rest =>
      (encoderDirection state a b).2 ::
        encoderDirectionsFrom (encoderDirection state a b).1 rest

/-- The successive stored states of a sequence of `encoderDirection` calls. -/
def encoderStatesFrom (state : Nat) : List (Bool × Bool) → List Nat
  | [] => []
  | (a, b) :: rest =>
      (encoderDirection state a b).1 ::
        encoderStatesFrom (encoderDirection state a b).1 rest

/-- The (levelA, levelB) pair realising a 2-bit code: line A is bit 0,
line B is bit 1. -/
def levelsOfCode (c : Nat) : Bool × Bool :=
  (decide (c &&& 1 = 1), decide ((c >>> 1) &&& 1 = 1))

/-- A code sequence turned into the level samples that produce it. -/
def feedCodes (codes : List Nat) : List (Bool × Bool) :=
  codes.map levelsOfCode

/-- Masking the state before a call does not change the call: the state
only enters `encoderDirection` through `state &&& 0xf`. -/
theorem encoderDirection_mask (s : Nat) (a b : Bool) :
    encoderDirection (s &&& 0xf) a b = encoderDirection s a b := by
  simp [encoderDirection, Nat.and_assoc]

theorem encoderCode_levelsOfCode : ∀ c < 4,
    encoderCode (levelsOfCode c).1 (levelsOfCode c).2 = c := by decide

/-- The single-step contract checked over all seven valid rows and all
four codes. -/
theorem step_matches_contract : ∀ m < 7, ∀ a b : Bool,
    encoderDirection m a b =
      (tableEntry m (encoderCode a b),
       if tableEntry m (encoderCode a b) &&& 0x30 = 0x10 then (-1 : Int)
       else if tableEntry m (encoderCode a b) &&& 0x30 = 0x20 then 1 else 0) := by
  decide

/-- C1: a single evaluate call computes `code = (levelB << 1) | levelA`,
replaces the stored state with `encoderStateTable[state & 0xf][code]`, and
returns the direction read off the new state's bits `0x30`: `0x10` gives
`-1` (Negative), `0x20` gives `+1` (Positive), and `0x00` gives `0`
(None). -/
theorem evaluate_contract (state : Nat) (hs : state &&& 0xf < 7) (a b : Bool) :
    encoderDirection state a b =
      (tableEntry (state &&& 0xf) (encoderCode a b),
       if tableEntry (state &&& 0xf) (encoderCode a b) &&& 0x30 = 0x10 then (-1 : Int)
       else if tableEntry (state &&& 0xf) (encoderCode a b) &&& 0x30 = 0x20 then 1
       else 0) := by
  rw [← encoderDirection_mask state a b]
  exact step_matches_contract (state &&& 0xf) hs a b

/-- C1 witness: the contract instantiated at state 1 with both lines high. -/
theorem evaluate_contract_witness :
    encoderDirection 1 true true =
      (tableEntry (1 &&& 0xf) (encoderCode true true),
       if tableEntry (1 &&& 0xf) (encoderCode true true) &&& 0x30 = 0x10 then (-1 : Int)
       else if tableEntry (1 &&& 0xf) (encoderCode true true) &&& 0x30 = 0x20 then 1
       else 0) :=
  evaluate_contract 1 (by decide) true true

/-- C2 counterexample: feeding the code sequence [1,3,2,0] from state 0
produces the successive states [2,0,4,6] with direction None at each of
the four steps — not the states [2,3,0,0] with a final Negative that the
claim asserts. -/
theorem single_detent_vector_counterexample :
    encoderStatesFrom 0 (feedCodes [1, 3, 2, 0]) = [2, 0, 4, 6] ∧
    encoderDirectionsFrom 0 (feedCodes [1, 3, 2, 0]) = [0, 0, 0, 0] ∧
    ¬ encoderStatesFrom 0 (feedCodes [1, 3, 2, 0]) = [2, 3, 0, 0] := by
  decide

/-- C2 amended: with the table fixed to its literal values, the code
sequence [1,0,2,3] from state 0 yields the successive stored states
[2,3,1,0x10] with direction None on the first three steps and Negative
on the fourth, exercising the `0x10` flag at row 1, column 3. -/
theorem single_detent_vector :
    encoderStateTable =
      [[0, 2, 4, 0], [3, 0, 1, 0x10], [3, 2, 0, 0], [3, 2, 1, 0],
       [6, 0, 4, 0], [6, 5, 0, 0x20], [6, 5, 4, 0]] ∧
    encoderStatesFrom 0 (feedCodes [1, 0, 2, 3]) = [2, 3, 1, 0x10] ∧
    encoderDirectionsFrom 0 (feedCodes [1, 0, 2, 3]) = [0, 0, 0, -1] ∧
    tableEntry 1 3 = 0x10 := by
  decide

theorem duplicate_levels_bounded : ∀ m < 7, ∀ a b : Bool,
    (encoderDirection (encoderDirection m a b).1 a b).2 = 0 := by decide

/-- C5: a second evaluate call with the same unchanged levels writes
direction None, from every valid state and every pair of levels. -/
theorem duplicate_levels_second_none (state : Nat) (hs : state &&& 0xf < 7)
    (a b : Bool) :
    (encoderDirection (encoderDirection state a b).1 a b).2 = 0 := by
  rw [← encoderDirection_mask state a b]
  exact duplicate_levels_bounded (state &&& 0xf) hs a b

/-- C5 witness: from state 1 with both lines high, the repeated call
writes None. -/
theorem duplicate_levels_second_none_witness :
    (encoderDirection (encoderDirection 1 true true).1 true true).2 = 0 :=
  duplicate_levels_second_none 1 (by decide) true true

theorem illegal_code_bounded : ∀ m < 7, ∀ c < 4, ∀ a b : Bool,
    encoderCode a b = c ^^^ 3 →
    (encoderDirection (tableEntry m c) a b).2 = 0 ∧
    ((encoderDirection (tableEntry m c) a b).1 = 0 ∨
      (tableEntry m c &&& 0xf = 0 ∧
        ((encoderDirection (tableEntry m c) a b).1 = 2 ∨
         (encoderDirection (tableEntry m c) a b).1 = 4))) := by
  decide

/-- C4 amended: take any reachable state together with the phase `c` that
led to it (the state is `encoderStateTable[m][c]` for some valid row `m`),
and inject the illegal code `c ^^^ 3` in which both lines changed at once.
The call always writes direction None, and whenever the current state's
low nibble is nonzero it also sets the state back to START (0); from the
START row the illegal code may instead move to a begin state (2 or 4),
still with None. -/
theorem illegal_code_absorbed (m c : Nat) (hm : m < 7) (hc : c < 4)
    (a b : Bool) (hab : encoderCode a b = c ^^^ 3) :
    (encoderDirection (tableEntry m c) a b).2 = 0 ∧
    ((encoderDirection (tableEntry m c) a b).1 = 0 ∨
      (tableEntry m c &&& 0xf = 0 ∧
        ((encoderDirection (tableEntry m c) a b).1 = 2 ∨
         (encoderDirection (tableEntry m c) a b).1 = 4))) :=
  illegal_code_bounded m hm c hc a b hab

/-- C4 witness: state 3 = `encoderStateTable[1][0]` was led to by phase 0;
the illegal code 3 (both lines high) sends it back to START with None. -/
theorem illegal_code_absorbed_witness :
    (encoderDirection (tableEntry 1 0) true true).2 = 0 ∧
    ((encoderDirection (tableEntry 1 0) true true).1 = 0 ∨
      (tableEntry 1 0 &&& 0xf = 0 ∧
        ((encoderDirection (tableEntry 1 0) true true).1 = 2 ∨
         (encoderDirection (tableEntry 1 0) true true).1 = 4))) :=
  illegal_code_absorbed 1 0 (by decide) (by decide) true true (by decide)

/-- C4 counterexample: the run [1,0,2,1] from START ends at state 0, whose
leading phase was code 1 (the last step used `encoderStateTable[1][1] = 0`).
Injecting the illegal code 2 = 1 ^^^ 3 (both lines changed) then moves the
decoder to state 4, not back to START as the claim requires — though the
direction written is still None. -/
theorem illegal_code_start_counterexample :
    encoderRunState 0 (feedCodes [1, 0, 2, 1]) = 0 ∧
    tableEntry 1 1 = 0 ∧
    encoderCode false true = 1 ^^^ 3 ∧
    encoderDirection 0 false true = (4, 0) ∧
    ¬ (4 : Nat) = 0 := by
  decide

theorem step_row_bounded : ∀ m < 7, ∀ a b : Bool,
    (encoderDirection m a b).1 &&& 0xf < 7 := by decide

theorem step_preserves_row (s : Nat) (hs : s &&& 0xf < 7) (a b : Bool) :
    (encoderDirection s a b).1 &&& 0xf < 7 := by
  rw [← encoderDirection_mask s a b]
  exact step_row_bounded (s &&& 0xf) hs a b

theorem runState_row_invariant (l : List (Bool × Bool)) :
    ∀ s, s &&& 0xf < 7 → encoderRunState s l &&& 0xf < 7 := by
  induction l with
  | nil => intro s hs; exact hs
  | cons p rest ih =>
      intro s hs
      obtain ⟨a, b⟩ := p
      simpa [encoderRunState] using ih (encoderDirection s a b).1
        (step_preserves_row s hs a b)

/-- C6: evaluate is total and never indexes out of bounds — after any
sequence of calls starting from START, the masked state is a valid row
index 0–6 of the 7×4 table, and the computed code is always 0–3. -/
theorem evaluate_total (l : List (Bool × Bool)) :
    encoderRunState 0 l &&& 0xf < 7 ∧ ∀ a b : Bool, encoderCode a b < 4 := by
  exact ⟨runState_row_invariant l 0 (by decide), by decide⟩

/-- C7: hysteresis — from START, every run of fewer than four evaluate
calls writes direction None at every step (in particular a lone call, a
half-step or a bounce never reports a direction). -/
theorem hysteresis_short_runs (l : List (Bool × Bool)) (h : l.length < 4) :
    encoderDirectionsFrom 0 l = List.replicate l.length 0 := by
  rcases l with _ | ⟨p, _ | ⟨q, _ | ⟨r, _ | ⟨s, rest⟩⟩⟩⟩
  · decide
  · revert p; decide
  · revert p q; decide
  · revert p q r; decide
  · simp only [List.length_cons] at h; omega

/-- C7 witness: a three-call run from START emits only None. -/
theorem hysteresis_short_runs_witness :
    encoderDirectionsFrom 0 [(true, false), (false, false), (false, true)] =
      List.replicate
        (List.length [((true : Bool), (false : Bool)), (false, false), (false, true)])
        0 :=
  hysteresis_short_runs [(true, false), (false, false), (false, true)] (by decide)

theorem event_row_bounded : ∀ m < 7, ∀ a b : Bool,
    (encoderDirection m a b).2 ≠ 0 →
    (encoderDirection m a b).1 &&& 0xf = 0 ∧
    ∀ a2 b2 : Bool, (encoderDirection (encoderDirection m a b).1 a2 b2).2 = 0 := by
  decide

/-- C9: whenever a call writes a nonzero direction, the new stored state's
low nibble is 0 (the START row), and hence the next call writes None
whatever its levels — no two consecutive calls both emit an event. -/
theorem event_resets_row (state : Nat) (hs : state &&& 0xf < 7) (a b : Bool)
    (hd : (encoderDirection state a b).2 ≠ 0) :
    (encoderDirection state a b).1 &&& 0xf = 0 ∧
    ∀ a2 b2 : Bool,
      (encoderDirection (encoderDirection state a b).1 a2 b2).2 = 0 := by
  rw [← encoderDirection_mask state a b] at hd ⊢
  exact event_row_bounded (state &&& 0xf) hs a b hd

/-- C9 witness: state 1 with both lines high emits Negative, lands on the
START row, and the following call (lines low) emits None. -/
theorem event_resets_row_witness :
    (encoderDirection 1 true true).1 &&& 0xf = 0 ∧
    ∀ a2 b2 : Bool,
      (encoderDirection (encoderDirection 1 true true).1 a2 b2).2 = 0 :=
  event_resets_row 1 (by decide) true true (by decide)

/-- One clockwise detent of the spec's canonical (A, B) phase cycle
00→01→11→10→00, fed one phase per call: codes [2, 3, 1, 0]. -/
def cwDetent : List (Bool × Bool) :=
  [(false, true), (true, true), (true, false), (false, false)]

/-- One detent of the reversed cycle 00→10→11→01→00: codes [1, 3, 2, 0]. -/
def ccwDetent : List (Bool × Bool) :=
  [(true, false), (true, true), (false, true), (false, false)]

theorem directionsFrom_append (l1 : List (Bool × Bool)) :
    ∀ (s : Nat) (l2 : List (Bool × Bool)),
    encoderDirectionsFrom s (l1 ++ l2) =
      encoderDirectionsFrom s l1 ++
        encoderDirectionsFrom (encoderRunState s l1) l2 := by
  induction l1 with
  | nil => intro s l2; rfl
  | cons p rest ih =>
      intro s l2
      obtain ⟨a, b⟩ := p
      simp [encoderDirectionsFrom, encoderRunState, ih]

theorem cw_detent_first :
    encoderDirectionsFrom 0 cwDetent = [0, 0, 0, 0] ∧
    encoderRunState 0 cwDetent = 3 := by decide

theorem cw_detent_steady :
    encoderDirectionsFrom 3 cwDetent = [0, -1, 0, 0] ∧
    encoderRunState 3 cwDetent = 3 := by decide

theorem ccw_detent_first :
    encoderDirectionsFrom 0 ccwDetent = [0, 0, 0, 0] ∧
    encoderRunState 0 ccwDetent = 6 := by decide

theorem ccw_detent_steady :
    encoderDirectionsFrom 6 ccwDetent = [0, 1, 0, 0] ∧
    encoderRunState 6 ccwDetent = 6 := by decide

theorem cw_steady_runs (n : Nat) :
    encoderDirectionsFrom 3 ((List.replicate n cwDetent).flatten) =
      (List.replicate n ([0, -1, 0, 0] : List Int)).flatten := by
  induction n with
  | zero => rfl
  | succ k ih =>
      rw [List.replicate_succ, List.flatten_cons, directionsFrom_append,
        cw_detent_steady.1, cw_detent_steady.2, ih,
        List.replicate_succ, List.flatten_cons]

theorem ccw_steady_runs (n : Nat) :
    encoderDirectionsFrom 6 ((List.replicate n ccwDetent).flatten) =
      (List.replicate n ([0, 1, 0, 0] : List Int)).flatten := by
  induction n with
  | zero => rfl
  | succ k ih =>
      rw [List.replicate_succ, List.flatten_cons, directionsFrom_append,
        ccw_detent_steady.1, ccw_detent_steady.2, ih,
        List.replicate_succ, List.flatten_cons]

/-- C3 counterexample: two full detents of the canonical clockwise cycle
00→01→11→10→00 from START emit zero Positive events and one Negative
event in total — not the two Positives and zero Negatives the claim
demands (one Positive per detent, no Negatives). -/
theorem detent_direction_counterexample :
    (encoderDirectionsFrom 0 ((List.replicate 2 cwDetent).flatten)).count 1 = 0 ∧
    (encoderDirectionsFrom 0 ((List.replicate 2 cwDetent).flatten)).count (-1) = 1 ∧
    ¬ ((encoderDirectionsFrom 0 ((List.replicate 2 cwDetent).flatten)).count 1 = 2 ∧
       (encoderDirectionsFrom 0 ((List.replicate 2 cwDetent).flatten)).count (-1) = 0) := by
  decide

/-- C3 amended: from START, the first detent of either cycle emits no
event while the machine synchronises; every subsequent detent of the
canonical cycle 00→01→11→10→00 emits exactly one Negative event (at its
second phase) and nothing else, and every subsequent detent of the
reversed cycle 00→10→11→01→00 emits exactly one Positive event and
nothing else. -/
theorem detent_direction_per_cycle (n : Nat) :
    encoderDirectionsFrom 0 ((List.replicate (n + 1) cwDetent).flatten) =
      [0, 0, 0, 0] ++ (List.replicate n ([0, -1, 0, 0] : List Int)).flatten ∧
    encoderDirectionsFrom 0 ((List.replicate (n + 1) ccwDetent).flatten) =
      [0, 0, 0, 0] ++ (List.replicate n ([0, 1, 0, 0] : List Int)).flatten := by
  constructor
  · rw [List.replicate_succ, List.flatten_cons, directionsFrom_append,
      cw_detent_first.1, cw_detent_first.2, cw_steady_runs]
  · rw [List.replicate_succ, List.flatten_cons, directionsFrom_append,
      ccw_detent_first.1, ccw_detent_first.2, ccw_steady_runs]

end RotencPi

namespace VolumePi

/-- The naive four-state decoder `encoderPulse` of the volume-control
daemon: `encoded = (MSB << 1) | LSB` with MSB sampled from pin A and LSB
from pin B, `sum = (lastEncoded << 2) | encoded`; `encoderPos` is
incremented on sums 0b1101, 0b0100, 0b0010, 0b1011 and decremented on
sums 0b1110, 0b0111, 0b0001, 0b1000, and `lastEncoded` becomes `encoded`.
The returned pair is (new lastEncoded, new encoderPos) of a completed
call (one not rejected by the busy flag). -/
def encoderPulse (lastEncoded : Nat) (encoderPos : Int) (msb lsb : Bool) :
    Nat × Int :=
  let encoded := (msb.toNat <<< 1) ||| lsb.toNat
  let sum := (lastEncoded <<< 2) ||| encoded
  let pos :=
    if sum = 0b1101 ∨ sum = 0b0100 ∨ sum = 0b0010 ∨ sum = 0b1011 then
      encoderPos + 1
    else if sum = 0b1110 ∨ sum = 0b0111 ∨ sum = 0b0001 ∨ sum = 0b1000 then
      encoderPos - 1
    else encoderPos
  (encoded, pos)

/-- C10: when the sampled code equals `lastEncoded`, a completed
`encoderPulse` call leaves `encoderPos` unchanged (and `lastEncoded`
keeps its value): the repeated-code sums are 0b0000, 0b0101, 0b1010 or
0b1111, which belong to neither the increment nor the decrement pattern
set. -/
theorem pulse_duplicate_code_no_tick (lastEncoded : Nat) (pos : Int)
    (msb lsb : Bool) (h : (msb.toNat <<< 1) ||| lsb.toNat = lastEncoded) :
    (encoderPulse lastEncoded pos msb lsb).2 = pos ∧
    (encoderPulse lastEncoded pos msb lsb).1 = lastEncoded ∧
    ((lastEncoded <<< 2) ||| lastEncoded = 0b0000 ∨
     (lastEncoded <<< 2) ||| lastEncoded = 0b0101 ∨
     (lastEncoded <<< 2) ||| lastEncoded = 0b1010 ∨
     (lastEncoded <<< 2) ||| lastEncoded = 0b1111) := by
  subst h
  cases msb <;> cases lsb <;> simp [encoderPulse]

/-- C10 witness: lastEncoded 3 with both lines still high leaves the
position counter at 0. -/
theorem pulse_duplicate_code_no_tick_witness :
    (encoderPulse 3 0 true true).2 = 0 ∧
    (encoderPulse 3 0 true true).1 = 3 ∧
    (((3 : Nat) <<< 2) ||| 3 = 0b0000 ∨ ((3 : Nat) <<< 2) ||| 3 = 0b0101 ∨
     ((3 : Nat) <<< 2) ||| 3 = 0b1010 ∨ ((3 : Nat) <<< 2) ||| 3 = 0b1111) :=
  pulse_duplicate_code_no_tick 3 0 true true (by decide)

end VolumePi
